import Mathlib

/-!
# Verification of `computeSales.py`

A shallow embedding of the validation-and-accumulation pipeline of
`computeSales.py`: JSON values are a tagged-variant type, Python dicts used
as the price map are association lists with Python-dict insert semantics
(update in place, else append), and numbers are modelled as rationals.
Python booleans are instances of `int`, so the `isinstance(x, (int, float))`
checks in the source accept booleans; the model reflects that.
Diagnostics (`print` calls with `[ERROR]` messages) are collected into a
list of strings returned alongside each stage result.
-/

set_option autoImplicit false

/-- JSON values as produced by `json.load`: the tagged-variant value type.
`int` and `float` are kept separate (Python keeps them distinct), numbers
idealised as rationals. Objects are association lists of fields. -/
inductive JSON where
  | null
  | bool (b : Bool)
  | int (n : ℤ)
  | float (q : ℚ)
  | str (s : String)
  | arr (elems : List JSON)
  | obj (fields : List (String × JSON))

namespace JSON

/-- `isinstance(x, list)`. -/
def isArr : JSON → Bool
  | .arr _ => true
  | _ => false

/-- `isinstance(x, dict)`. -/
def isObj : JSON → Bool
  | .obj _ => true
  | _ => false

/-- First-match field lookup; Python dicts have unique keys. -/
def lookupField : List (String × JSON) → String → Option JSON
  | [], _ => none
  | (k, v) :: fs, key => if k = key then some v else lookupField fs key

/-- `d.get(key)`: `None` (here `none`) when the key is absent or the value
is not an object. In the source it is only called on values checked with
`isinstance(item, dict)`. -/
def get : JSON → String → Option JSON
  | .obj fs, key => lookupField fs key
  | _, _ => none

/-- `isinstance(x, (int, float))`. Python `bool` is a subclass of `int`,
so booleans pass this check. -/
def isNumeric : JSON → Bool
  | .bool _ => true
  | .int _ => true
  | .float _ => true
  | _ => false

/-- `float(x)` on a value that passed the numeric check:
`float(True) = 1.0`, `float(False) = 0.0`. On other tags the source never
calls it; the result there is irrelevant (a default 0). -/
def toFloat : JSON → ℚ
  | .bool b => if b then 1 else 0
  | .int n => (n : ℚ)
  | .float q => q
  | _ => 0

end JSON

/-- `isinstance(x, str)` on an `Optional` value (`dict.get` result);
`isinstance(None, str)` is false. -/
def optIsStr : Option JSON → Bool
  | some (.str _) => true
  | _ => false

/-- `isinstance(x, (int, float))` on an `Optional` value;
`isinstance(None, (int, float))` is false. -/
def optIsNumeric : Option JSON → Bool
  | some j => j.isNumeric
  | none => false

/-- The text of an `Optional` value known to be a string (guarded use). -/
def optStr : Option JSON → String
  | some (.str s) => s
  | _ => ""

/-- `float(x)` on an `Optional` value known to be numeric (guarded use). -/
def optToFloat : Option JSON → ℚ
  | some j => j.toFloat
  | none => 0

/-- The price map: a Python `Dict[str, float]` modelled as an association
list in insertion order. -/
abbrev PriceMap := List (String × ℚ)

/-- `key in d`. -/
def containsKey : PriceMap → String → Bool
  | [], _ => false
  | (k, _) :: m, key => if k = key then true else containsKey m key

/-- `d[key]` as a partial lookup (first match; keys are unique). -/
def plookup : PriceMap → String → Option ℚ
  | [], _ => none
  | (k, v) :: m, key => if k = key then some v else plookup m key

/-- `d[key] = v`: Python-dict assignment. An existing key keeps its
position and gets the new value; a new key is appended. -/
def dinsert : PriceMap → String → ℚ → PriceMap
  | [], key, v => [(key, v)]
  | (k, w) :: m, key, v =>
    if k = key then (key, v) :: m else (k, w) :: dinsert m key v

/-- One iteration of the `build_price_map` loop body
(`computeSales.py` lines 49–65): shape checks with diagnostics, then
`price_map[title] = float(price)`. Returns the updated map and the
diagnostics printed during this iteration. -/
def buildStep (m : PriceMap) (idx : ℕ) (item : JSON) : PriceMap × List String :=
  if item.isObj = false then
    (m, [s!"[ERROR] Catalogue item #{idx} is not an object."])
  else
    let title := item.get "title"
    let price := item.get "price"
    if optIsStr title = false then
      (m, [s!"[ERROR] Catalogue item #{idx} has invalidx \x27title\x27."])
    else if optIsNumeric price = false then
      (m, [s!"[ERROR] Catalogue item #{idx} has invalidx \x27price\x27."])
    else
      (dinsert m (optStr title) (optToFloat price), [])

/-- The `for idx, item in enumerate(...)` loop of `build_price_map`,
threading the map and collecting diagnostics in print order. -/
def buildLoop (m : PriceMap) (idx : ℕ) : List JSON → PriceMap × List String
  | [] => (m, [])
  | x :: xs =>
    let st := buildStep m idx x
    let rest := buildLoop st.1 (idx + 1) xs
    (rest.1, st.2 ++ rest.2)

/-- `build_price_map` (`computeSales.py` lines 36–67): top-level list
check, then the indexing loop. Returns the price map and the diagnostics. -/
def build_price_map (catalogue_data : JSON) : PriceMap × List String :=
  match catalogue_data with
  | .arr xs => buildLoop [] 0 xs
  | _ => ([], ["[ERROR] Price catalogue JSON must be a list of products."])

/-- One iteration of the `compute_sales_total` loop body
(`computeSales.py` lines 84–106): shape checks, catalogue membership
check, then `price_map[product] * float(quantity)`. Returns this sale's
contribution to the total (0 when skipped) and its diagnostics. -/
def saleStep (pm : PriceMap) (idx : ℕ) (sale : JSON) : ℚ × List String :=
  if sale.isObj = false then
    (0, [s!"[ERROR] Sale #{idx} is not an object."])
  else
    let product := sale.get "Product"
    let quantity := sale.get "Quantity"
    if optIsStr product = false then
      (0, [s!"[ERROR] Sale #{idx}: invalidx \x27Product\x27."])
    else if optIsNumeric quantity = false then
      (0, [s!"[ERROR] Sale #{idx}: invalidx \x27Quantity\x27."])
    else if containsKey pm (optStr product) = false then
      (0, [s!"[ERROR] Sale #{idx}: product \x27{optStr product}\x27 not in catalogue."])
    else
      ((plookup pm (optStr product)).getD 0 * optToFloat quantity, [])

/-- The `for idx, sale in enumerate(...)` loop of `compute_sales_total`,
accumulating `total_cost` and collecting diagnostics in print order. -/
def computeLoop (pm : PriceMap) (total : ℚ) (idx : ℕ) :
    List JSON → ℚ × List String
  | [] => (total, [])
  | x :: xs =>
    let st := saleStep pm idx x
    let rest := computeLoop pm (total + st.1) (idx + 1) xs
    (rest.1, st.2 ++ rest.2)

/-- `compute_sales_total` (`computeSales.py` lines 70–108): top-level list
check, then the accumulation loop starting from `total_cost = 0.0`.
Returns the total and the diagnostics. -/
def compute_sales_total (pm : PriceMap) (sales_data : JSON) : ℚ × List String :=
  match sales_data with
  | .arr xs => computeLoop pm 0 0 xs
  | _ => (0, ["[ERROR] Sales record JSON must be a list of sales."])

/-- Insert a comma after every third character; applied to the reversed
digit string of the integer part, this realises the `,` thousands
grouping of Python format specs. -/
def group3Rev : List Char → List Char
  | a :: b :: c :: d :: rest => a :: b :: c :: ',' :: group3Rev (d :: rest)
  | l => l

/-- Thousands grouping of a digit string, from the right. -/
def groupThousands (s : String) : String :=
  String.mk ((group3Rev s.data.reverse).reverse)

/-- Left-pad a digit string with zeros to width `n`. -/
def padZeros (s : String) (n : ℕ) : String :=
  String.mk (List.replicate (n - s.length) '0') ++ s

/-- Render a magnitude scaled by `10 ^ n` as a fixed-point decimal with
`n` fractional digits, optional thousands grouping, and an optional
leading minus sign. -/
def fmtScaled (m : ℤ) (n : ℕ) (grouped : Bool) (neg : Bool) : String :=
  let a := m.natAbs
  let ip := a / 10 ^ n
  let fp := a % 10 ^ n
  let ipStr := if grouped then groupThousands (toString ip) else toString ip
  (if neg then "-" else "") ++ ipStr ++ "." ++ padZeros (toString fp) n

/-- The value scaled by `10 ^ n` and rounded to the nearest integer,
ties to even: the rounding Python fixed-point format specs apply. -/
def roundHalfEvenScaled (q : ℚ) (n : ℕ) : ℤ :=
  let a : ℤ := q.num * ((10 ^ n : ℕ) : ℤ)
  let b : ℤ := (q.den : ℤ)
  let fl := a.fdiv b
  let r := a.fmod b
  if 2 * r < b then fl
  else if b < 2 * r then fl + 1
  else if fl % 2 = 0 then fl else fl + 1

/-- Python `f"{x:,.nf}"`: thousands-separated fixed-point with `n`
fractional digits (numbers idealised as rationals). -/
def fmtCommaFixed (q : ℚ) (n : ℕ) : String :=
  fmtScaled (roundHalfEvenScaled q n) n true (decide (q < 0))

/-- Python `f"{x:.nf}"`: fixed-point with `n` fractional digits, no
grouping. -/
def fmtFixed (q : ℚ) (n : ℕ) : String :=
  fmtScaled (roundHalfEvenScaled q n) n false (decide (q < 0))

/-- `format_results` (`computeSales.py` lines 111–119): the five report
lines joined with newlines. -/
def format_results (total_cost elapsed_seconds : ℚ) : String :=
  String.intercalate "\n"
    ["==== SALES RESULTS ====",
     "Total Sales Cost: $" ++ fmtCommaFixed total_cost 2,
     "",
     "Time Elapsed: " ++ fmtFixed elapsed_seconds 6 ++ " seconds",
     "======================="]

/-- The loop body of `build_price_map` viewed as a partial validity check:
`some (title, float(price))` exactly when the entry passes all three shape
checks of the source, `none` when it is skipped with a diagnostic. -/
def validEntry? (item : JSON) : Option (String × ℚ) :=
  if item.isObj = false then none
  else
    let title := item.get "title"
    let price := item.get "price"
    if optIsStr title = false then none
    else if optIsNumeric price = false then none
    else some (optStr title, optToFloat price)

theorem bool_true_of_not_false {b : Bool} (h : ¬b = false) : b = true := by
  cases b
  · exact absurd rfl h
  · rfl

theorem plookup_dinsert_self (m : PriceMap) (k : String) (v : ℚ) :
    plookup (dinsert m k v) k = some v := by
  induction m with
  | nil => simp [dinsert, plookup]
  | cons kv m ih =>
    by_cases h : kv.1 = k
    · simp [dinsert, plookup, h]
    · simp [dinsert, plookup, h, ih]

theorem plookup_dinsert_ne (m : PriceMap) (k k' : String) (v : ℚ)
    (h : k ≠ k') : plookup (dinsert m k v) k' = plookup m k' := by
  induction m with
  | nil => simp [dinsert, plookup, h]
  | cons kv m ih =>
    by_cases h1 : kv.1 = k
    · simp [dinsert, plookup, h1, h]
    · by_cases h2 : kv.1 = k' <;>
        simp [dinsert, plookup, h1, h2, Ne.symm h, ih]

theorem containsKey_eq_isSome (m : PriceMap) (k : String) :
    containsKey m k = (plookup m k).isSome := by
  induction m with
  | nil => simp [containsKey, plookup]
  | cons kv m ih =>
    by_cases h : kv.1 = k <;> simp [containsKey, plookup, h, ih]

theorem plookup_mem (m : PriceMap) (k : String) (v : ℚ)
    (h : plookup m k = some v) : (k, v) ∈ m := by
  induction m with
  | nil => simp [plookup] at h
  | cons kv m ih =>
    by_cases h1 : kv.1 = k
    · simp [plookup, h1] at h
      have hkv : kv = (k, v) := by
        obtain ⟨a, b⟩ := kv
        simp at h1 h
        simp [h1, h]
      rw [hkv]
      exact List.mem_cons_self _ _
    · simp [plookup, h1] at h
      exact List.mem_cons_of_mem _ (ih h)

theorem buildStep_valid (m : PriceMap) (idx : ℕ) (item : JSON)
    (t : String) (p : ℚ) (h : validEntry? item = some (t, p)) :
    buildStep m idx item = (dinsert m t p, []) := by
  unfold validEntry? at h
  by_cases h1 : item.isObj = false
  · simp [h1] at h
  · by_cases h2 : optIsStr (item.get "title") = false
    · simp [h1, h2] at h
    · by_cases h3 : optIsNumeric (item.get "price") = false
      · simp [h1, h2, h3] at h
      · simp [h1, h2, h3] at h
        simp [buildStep, h1, h2, h3]
        rw [h.1, h.2]

theorem buildStep_invalid (m : PriceMap) (idx : ℕ) (item : JSON)
    (h : validEntry? item = none) : (buildStep m idx item).1 = m := by
  unfold validEntry? at h
  by_cases h1 : item.isObj = false
  · simp [buildStep, h1]
  · by_cases h2 : optIsStr (item.get "title") = false
    · simp [buildStep, h1, h2]
    · by_cases h3 : optIsNumeric (item.get "price") = false
      · simp [buildStep, h1, h2, h3]
      · simp [h1, h2, h3] at h

theorem buildLoop_fst_cons (m : PriceMap) (idx : ℕ) (x : JSON)
    (xs : List JSON) :
    (buildLoop m idx (x :: xs)).1 =
      (buildLoop (buildStep m idx x).1 (idx + 1) xs).1 := by
  simp [buildLoop]

theorem buildLoop_fst_append (a b : List JSON) :
    ∀ (m : PriceMap) (idx : ℕ),
      (buildLoop m idx (a ++ b)).1 =
        (buildLoop (buildLoop m idx a).1 (idx + a.length) b).1 := by
  induction a with
  | nil => intro m idx; simp [buildLoop]
  | cons x xs ih =>
    intro m idx
    rw [List.cons_append, buildLoop_fst_cons, buildLoop_fst_cons, ih]
    have : idx + 1 + xs.length = idx + (x :: xs).length := by
      simp [List.length_cons]; omega
    rw [this]

/-- Written from the spec wording for the Accumulator, independently of the
loop in the source: an element that is an object with a string `Product`
present as a key in the price map and a numeric `Quantity` contributes
`price_map[Product] * float(Quantity)`; every other element contributes
nothing. Used to state the refinement claim about `compute_sales_total`. -/
def specContribution (pm : PriceMap) (j : JSON) : ℚ :=
  match j with
  | .obj _ =>
    match j.get "Product", j.get "Quantity" with
    | some (.str s), some q =>
      match plookup pm s with
      | some price => if q.isNumeric then price * q.toFloat else 0
      | none => 0
    | _, _ => 0
  | _ => 0

theorem saleStep_fst (pm : PriceMap) (idx : ℕ) (j : JSON) :
    (saleStep pm idx j).1 = specContribution pm j := by
  rcases j with _ | b | n | q | s | xs | fs <;>
    simp [saleStep, specContribution, JSON.isObj]
  rcases hp : JSON.get (.obj fs) "Product" with _ | p
  · simp [optIsStr, hp]
  · rcases p with _ | b | n | q | s | xs | gs <;> simp [optIsStr, hp, optStr]
    rcases hq : JSON.get (.obj fs) "Quantity" with _ | q
    · simp [optIsNumeric, hq]
    · by_cases hnum : q.isNumeric = false
      · simp [optIsNumeric, hq, hnum]
        rcases plookup pm s with _ | price <;> simp [hnum]
      · simp [optIsNumeric, hq, hnum, optToFloat]
        rcases hpl : plookup pm s with _ | price <;>
          simp [containsKey_eq_isSome, hpl, bool_true_of_not_false hnum]

theorem computeLoop_fst (pm : PriceMap) (xs : List JSON) :
    ∀ (total : ℚ) (idx : ℕ),
      (computeLoop pm total idx xs).1 =
        xs.foldl (fun acc j => acc + specContribution pm j) total := by
  induction xs with
  | nil => intro total idx; simp [computeLoop]
  | cons x xs ih =>
    intro total idx
    simp only [computeLoop, List.foldl_cons]
    rw [ih, saleStep_fst]

/-- The accumulation loop with the state threaded explicitly: each
iteration receives the pair (price map, running total) left by the
previous one and executes the loop body, which reads the price map and
updates only `total_cost` — the source contains no assignment to
`price_map`. -/
def computeLoopF (st : PriceMap × ℚ) (idx : ℕ) : List JSON → PriceMap × ℚ
  | [] => st
  | x :: xs => computeLoopF (st.1, st.2 + (saleStep st.1 idx x).1) (idx + 1) xs

/-- `compute_sales_total` with the price map threaded as state, returning
the state of the map at exit alongside the total. -/
def compute_sales_totalF (pm : PriceMap) (sales_data : JSON) : PriceMap × ℚ :=
  match sales_data with
  | .arr xs => computeLoopF (pm, 0) 0 xs
  | _ => (pm, 0)

theorem computeLoopF_eq (xs : List JSON) :
    ∀ (pm : PriceMap) (total : ℚ) (idx : ℕ),
      computeLoopF (pm, total) idx xs = (pm, (computeLoop pm total idx xs).1) := by
  induction xs with
  | nil => intro pm total idx; simp [computeLoopF, computeLoop]
  | cons x xs ih =>
    intro pm total idx
    simp only [computeLoopF, computeLoop]
    exact ih pm _ (idx + 1)

/-- `float(x)` as the fallible Python call: raises on values that fail
the numeric check (`TypeError` on `None`, lists, objects; on strings
Python may raise `ValueError`, modelled conservatively as always
raising — the source only calls `float` behind the numeric check). -/
def optToFloatE : Option JSON → Except String ℚ
  | some (.bool b) => .ok (if b then 1 else 0)
  | some (.int n) => .ok ((n : ℚ))
  | some (.float q) => .ok q
  | _ => .error "TypeError"

/-- `d[key]` as the fallible Python subscript: `KeyError` when absent. -/
def subscriptE (pm : PriceMap) (key : String) : Except String ℚ :=
  match plookup pm key with
  | some v => .ok v
  | none => .error "KeyError"

/-- The `build_price_map` loop body with the fallible `float()` call
explicit. -/
def buildStepE (m : PriceMap) (idx : ℕ) (item : JSON) :
    Except String (PriceMap × List String) :=
  if item.isObj = false then
    .ok (m, [s!"[ERROR] Catalogue item #{idx} is not an object."])
  else
    let title := item.get "title"
    let price := item.get "price"
    if optIsStr title = false then
      .ok (m, [s!"[ERROR] Catalogue item #{idx} has invalidx \x27title\x27."])
    else if optIsNumeric price = false then
      .ok (m, [s!"[ERROR] Catalogue item #{idx} has invalidx \x27price\x27."])
    else
      match optToFloatE price with
      | .error e => .error e
      | .ok p => .ok (dinsert m (optStr title) p, [])

/-- The `build_price_map` loop with fallible iterations. -/
def buildLoopE (m : PriceMap) (idx : ℕ) :
    List JSON → Except String (PriceMap × List String)
  | [] => .ok (m, [])
  | x :: xs =>
    match buildStepE m idx x with
    | .error e => .error e
    | .ok st =>
      match buildLoopE st.1 (idx + 1) xs with
      | .error e => .error e
      | .ok rest => .ok (rest.1, st.2 ++ rest.2)

/-- `build_price_map` with every operation Python could raise on made
explicit in an error monad. -/
def build_price_mapE (catalogue_data : JSON) :
    Except String (PriceMap × List String) :=
  match catalogue_data with
  | .arr xs => buildLoopE [] 0 xs
  | _ => .ok ([], ["[ERROR] Price catalogue JSON must be a list of products."])

/-- The `compute_sales_total` loop body with the fallible subscript and
`float()` calls explicit. -/
def saleStepE (pm : PriceMap) (idx : ℕ) (sale : JSON) :
    Except String (ℚ × List String) :=
  if sale.isObj = false then
    .ok (0, [s!"[ERROR] Sale #{idx} is not an object."])
  else
    let product := sale.get "Product"
    let quantity := sale.get "Quantity"
    if optIsStr product = false then
      .ok (0, [s!"[ERROR] Sale #{idx}: invalidx \x27Product\x27."])
    else if optIsNumeric quantity = false then
      .ok (0, [s!"[ERROR] Sale #{idx}: invalidx \x27Quantity\x27."])
    else if containsKey pm (optStr product) = false then
      .ok (0, [s!"[ERROR] Sale #{idx}: product \x27{optStr product}\x27 not in catalogue."])
    else
      match subscriptE pm (optStr product) with
      | .error e => .error e
      | .ok price =>
        match optToFloatE quantity with
        | .error e => .error e
        | .ok q => .ok (price * q, [])

/-- The `compute_sales_total` loop with fallible iterations. -/
def computeLoopE (pm : PriceMap) (total : ℚ) (idx : ℕ) :
    List JSON → Except String (ℚ × List String)
  | [] => .ok (total, [])
  | x :: xs =>
    match saleStepE pm idx x with
    | .error e => .error e
    | .ok st =>
      match computeLoopE pm (total + st.1) (idx + 1) xs with
      | .error e => .error e
      | .ok rest => .ok (rest.1, st.2 ++ rest.2)

/-- `compute_sales_total` with every operation Python could raise on made
explicit in an error monad. -/
def compute_sales_totalE (pm : PriceMap) (sales_data : JSON) :
    Except String (ℚ × List String) :=
  match sales_data with
  | .arr xs => computeLoopE pm 0 0 xs
  | _ => .ok (0, ["[ERROR] Sales record JSON must be a list of sales."])

theorem optToFloatE_ok (x : Option JSON) (h : optIsNumeric x = true) :
    optToFloatE x = .ok (optToFloat x) := by
  rcases x with _ | j
  · simp [optIsNumeric] at h
  · rcases j with _ | b | n | q | s | xs | fs <;>
      simp_all [optIsNumeric, JSON.isNumeric, optToFloatE, optToFloat,
        JSON.toFloat]

theorem subscriptE_ok (pm : PriceMap) (key : String)
    (h : containsKey pm key = true) :
    subscriptE pm key = .ok ((plookup pm key).getD 0) := by
  rw [containsKey_eq_isSome] at h
  rcases hl : plookup pm key with _ | v
  · rw [hl] at h; simp at h
  · simp [subscriptE, hl]

theorem buildStepE_eq (m : PriceMap) (idx : ℕ) (item : JSON) :
    buildStepE m idx item = .ok (buildStep m idx item) := by
  by_cases h1 : item.isObj = false
  · simp [buildStepE, buildStep, h1]
  · by_cases h2 : optIsStr (item.get "title") = false
    · simp [buildStepE, buildStep, h1, h2]
    · by_cases h3 : optIsNumeric (item.get "price") = false
      · simp [buildStepE, buildStep, h1, h2, h3]
      · simp [buildStepE, buildStep, h1, h2, h3,
          optToFloatE_ok _ (bool_true_of_not_false h3)]

theorem saleStepE_eq (pm : PriceMap) (idx : ℕ) (sale : JSON) :
    saleStepE pm idx sale = .ok (saleStep pm idx sale) := by
  by_cases h1 : sale.isObj = false
  · simp [saleStepE, saleStep, h1]
  · by_cases h2 : optIsStr (sale.get "Product") = false
    · simp [saleStepE, saleStep, h1, h2]
    · by_cases h3 : optIsNumeric (sale.get "Quantity") = false
      · simp [saleStepE, saleStep, h1, h2, h3]
      · by_cases h4 : containsKey pm (optStr (sale.get "Product")) = false
        · simp [saleStepE, saleStep, h1, h2, h3, h4]
        · simp [saleStepE, saleStep, h1, h2, h3, h4,
            optToFloatE_ok _ (bool_true_of_not_false h3),
            subscriptE_ok pm _ (bool_true_of_not_false
              (by simpa using h4))]

theorem buildLoopE_eq (xs : List JSON) :
    ∀ (m : PriceMap) (idx : ℕ),
      buildLoopE m idx xs = .ok (buildLoop m idx xs) := by
  induction xs with
  | nil => intro m idx; simp [buildLoopE, buildLoop]
  | cons x xs ih =>
    intro m idx
    simp [buildLoopE, buildLoop, buildStepE_eq, ih]

theorem computeLoopE_eq (pm : PriceMap) (xs : List JSON) :
    ∀ (total : ℚ) (idx : ℕ),
      computeLoopE pm total idx xs = .ok (computeLoop pm total idx xs) := by
  induction xs with
  | nil => intro total idx; simp [computeLoopE, computeLoop]
  | cons x xs ih =>
    intro total idx
    simp [computeLoopE, computeLoop, saleStepE_eq, ih]

theorem buildLoop_no_write (t : String) (xs : List JSON)
    (h : ∀ e ∈ xs, ∀ p, validEntry? e ≠ some (t, p)) :
    ∀ (m : PriceMap) (idx : ℕ),
      plookup (buildLoop m idx xs).1 t = plookup m t := by
  induction xs with
  | nil => intro m idx; simp [buildLoop]
  | cons x xs ih =>
    intro m idx
    rw [buildLoop_fst_cons]
    have hx : ∀ p, validEntry? x ≠ some (t, p) := h x (List.mem_cons_self x xs)
    have hxs : ∀ e ∈ xs, ∀ p, validEntry? e ≠ some (t, p) :=
      fun e he => h e (List.mem_cons_of_mem x he)
    rw [ih hxs]
    rcases hv : validEntry? x with _ | ⟨t', p'⟩
    · rw [buildStep_invalid m idx x hv]
    · have ht : t' ≠ t := by
        intro hc
        exact hx p' (by rw [hv, hc])
      rw [buildStep_valid m idx x t' p' hv]
      exact plookup_dinsert_ne m t' t p' ht

theorem saleStep_fst_nonneg (pm : PriceMap) (idx : ℕ) (x : JSON)
    (hpm : ∀ kv ∈ pm, 0 ≤ kv.2)
    (hq : 0 ≤ optToFloat (x.get "Quantity")) :
    0 ≤ (saleStep pm idx x).1 := by
  by_cases h1 : x.isObj = false
  · simp [saleStep, h1]
  · by_cases h2 : optIsStr (x.get "Product") = false
    · simp [saleStep, h1, h2]
    · by_cases h3 : optIsNumeric (x.get "Quantity") = false
      · simp [saleStep, h1, h2, h3]
      · by_cases h4 : containsKey pm (optStr (x.get "Product")) = false
        · simp [saleStep, h1, h2, h3, h4]
        · simp [saleStep, h1, h2, h3, h4]
          apply mul_nonneg _ hq
          rcases hpl : plookup pm (optStr (x.get "Product")) with _ | v
          · simp
          · simpa using hpm _ (plookup_mem _ _ _ hpl)

theorem computeLoop_fst_nonneg (pm : PriceMap) (xs : List JSON)
    (hpm : ∀ kv ∈ pm, 0 ≤ kv.2)
    (hq : ∀ x ∈ xs, 0 ≤ optToFloat (x.get "Quantity")) :
    ∀ (total : ℚ) (idx : ℕ), 0 ≤ total →
      0 ≤ (computeLoop pm total idx xs).1 := by
  induction xs with
  | nil => intro total idx ht; simpa [computeLoop] using ht
  | cons x xs ih =>
    intro total idx ht
    simp only [computeLoop]
    exact ih (fun y hy => hq y (List.mem_cons_of_mem x hy)) _ (idx + 1)
      (add_nonneg ht
        (saleStep_fst_nonneg pm idx x hpm (hq x (List.mem_cons_self x xs))))

/-! ## The claims -/

/-- **C1, counterexample.** The claim says a catalogue entry whose `price`
is a boolean is skipped with a diagnostic. On the code, the entry
`{"title": "A", "price": true}` is *inserted* (as `1.0`) and no diagnostic
is emitted: `isinstance(True, (int, float))` holds because Python `bool`
is a subclass of `int`. -/
theorem bool_price_accepted_cex :
    build_price_map (.arr [.obj [("title", .str "A"), ("price", .bool true)]]) =
      ([("A", 1)], []) := by
  decide

/-- **C1 (amended).** A catalogue element that is an object with a string
`title` and a boolean `price` passes the numeric check of
`build_price_map`: it is treated as a valid entry with price `1.0` for
`true` and `0.0` for `false`, is inserted into the map, and emits no
diagnostic. (Missing, string, or otherwise non-numeric non-boolean prices
are still skipped with a diagnostic.) -/
theorem bool_price_accepted (m : PriceMap) (idx : ℕ) (t : String) (b : Bool) :
    validEntry? (.obj [("title", .str t), ("price", .bool b)]) =
        some (t, if b then 1 else 0) ∧
      buildStep m idx (.obj [("title", .str t), ("price", .bool b)]) =
        (dinsert m t (if b then 1 else 0), []) := by
  constructor <;>
    simp +decide [validEntry?, buildStep, JSON.isObj, JSON.get,
      JSON.lookupField, optIsStr, optIsNumeric, JSON.isNumeric, optStr,
      optToFloat, JSON.toFloat]

/-- **C2.** `compute_sales_total` on a sales list is the left-to-right
fold over the list, in input order, starting from `0.0`, adding
`price_map[Product] * float(Quantity)` for each element that is an object
with a string `Product` present in the price map and a numeric `Quantity`,
and adding nothing for every other element — no sorting, no compensation. -/
theorem compute_sales_total_foldl (pm : PriceMap) (xs : List JSON) :
    (compute_sales_total pm (.arr xs)).1 =
      xs.foldl (fun acc j => acc + specContribution pm j) 0 := by
  simp [compute_sales_total, computeLoop_fst]

/-- **C3, counterexample.** The claim says the total is always
non-negative. A catalogue with a negative price (accepted: the source
checks only the type of `price`) and a matching sale yields a negative
total: price `-5`, quantity `1` gives `-5.0 < 0`. -/
theorem compute_sales_total_negative_cex :
    (compute_sales_total
        (build_price_map
          (.arr [.obj [("title", .str "A"), ("price", .int (-5))]])).1
        (.arr [.obj [("Product", .str "A"), ("Quantity", .int 1)]])).1 < 0 := by
  simp +decide [compute_sales_total, computeLoop, saleStep, build_price_map,
    buildLoop, buildStep, JSON.get, JSON.lookupField, optIsStr, optIsNumeric,
    optStr, optToFloat, containsKey, plookup, dinsert, JSON.isObj,
    JSON.isNumeric, JSON.toFloat]

/-- **C3 (amended).** If every price stored in the price map is
non-negative and every sale's coerced `Quantity` is non-negative, the
total returned by `compute_sales_total` is non-negative. (Negative prices
or quantities are not rejected by the code and make the total negative.) -/
theorem compute_sales_total_nonneg (pm : PriceMap) (v : JSON)
    (hpm : ∀ kv ∈ pm, 0 ≤ kv.2)
    (hq : ∀ xs, v = .arr xs → ∀ x ∈ xs, 0 ≤ optToFloat (x.get "Quantity")) :
    0 ≤ (compute_sales_total pm v).1 := by
  rcases v with _ | b | n | q | s | xs | fs <;>
    simp [compute_sales_total]
  exact computeLoop_fst_nonneg pm xs hpm (hq xs rfl) 0 0 le_rfl

/-- Witness for the amended C3 theorem at a concrete non-negative input. -/
theorem compute_sales_total_nonneg_witness :
    0 ≤ (compute_sales_total [("A", 2)]
        (.arr [.obj [("Product", .str "A"), ("Quantity", .int 3)]])).1 :=
  compute_sales_total_nonneg [("A", 2)] _
    (by intro kv hkv; simp at hkv; rw [hkv]; norm_num)
    (by
      intro xs hxs x hx
      cases hxs
      simp at hx
      rw [hx]
      decide)

/-- **C4.** Last-write-wins: if a catalogue list contains a valid entry
`e` with title `t` and price `p`, and no later element is a valid entry
with title `t`, then the price map built by `build_price_map` maps `t`
to `p` — duplicates earlier in the list are overwritten. -/
theorem build_price_map_last_write (l₁ l₂ : List JSON) (e : JSON)
    (t : String) (p : ℚ) (hv : validEntry? e = some (t, p))
    (hlast : ∀ e' ∈ l₂, ∀ p', validEntry? e' ≠ some (t, p')) :
    plookup (build_price_map (.arr (l₁ ++ e :: l₂))).1 t = some p := by
  show plookup (buildLoop [] 0 (l₁ ++ e :: l₂)).1 t = some p
  rw [buildLoop_fst_append, buildLoop_fst_cons, buildLoop_no_write t l₂ hlast,
    buildStep_valid _ _ _ _ _ hv]
  simp [plookup_dinsert_self]

/-- Witness for C4: two entries titled `A` with prices 1 and 2; the map
retains 2, the last occurrence. -/
theorem build_price_map_last_write_witness :
    plookup (build_price_map
        (.arr [.obj [("title", .str "A"), ("price", .int 1)],
               .obj [("title", .str "A"), ("price", .int 2)]])).1 "A" =
      some 2 :=
  build_price_map_last_write
    [.obj [("title", .str "A"), ("price", .int 1)]] []
    (.obj [("title", .str "A"), ("price", .int 2)]) "A" 2
    (by decide) (by simp)

/-- **C5.** On a top-level value that is not a list, `build_price_map`
returns the empty map with exactly one diagnostic and
`compute_sales_total` returns `0.0` with exactly one diagnostic; both
return normally (not fatally). -/
theorem non_list_inputs (v : JSON) (h : v.isArr = false) :
    build_price_map v =
        ([], ["[ERROR] Price catalogue JSON must be a list of products."]) ∧
      ∀ pm : PriceMap, compute_sales_total pm v =
        (0, ["[ERROR] Sales record JSON must be a list of sales."]) := by
  rcases v with _ | b | n | q | s | xs | fs <;>
    simp_all [JSON.isArr, build_price_map, compute_sales_total]

/-- Witness for C5 at the concrete non-list input `null`. -/
theorem non_list_inputs_witness :
    JSON.isArr .null = false ∧
      (build_price_map .null =
          ([], ["[ERROR] Price catalogue JSON must be a list of products."]) ∧
        ∀ pm : PriceMap, compute_sales_total pm .null =
          (0, ["[ERROR] Sales record JSON must be a list of sales."])) :=
  ⟨rfl, non_list_inputs .null rfl⟩

/-- **C6.** For the catalogue `[{"title": "A", "price": 10}]` and the
sales list `[{"Product": "A", "Quantity": 3}]`, the composed pipeline
returns exactly `30.0`. -/
theorem pipeline_example_total :
    (compute_sales_total
      (build_price_map (.arr [.obj [("title", .str "A"), ("price", .int 10)]])).1
      (.arr [.obj [("Product", .str "A"), ("Quantity", .int 3)]])).1 = 30 := by
  simp +decide [compute_sales_total, computeLoop, saleStep, build_price_map,
    buildLoop, buildStep, JSON.get, JSON.lookupField, optIsStr, optIsNumeric,
    optStr, optToFloat, containsKey, plookup, dinsert, JSON.isObj,
    JSON.isNumeric, JSON.toFloat]
  norm_num

/-- **C7.** Totality: with every operation Python could raise on made
explicit (`float()` coercion, dict subscript), `build_price_map` and
`compute_sales_total` return `.ok` on every JSON input and every price
map — the guards in the source make the fallible operations safe, so
neither function ever raises. -/
theorem pipeline_total_no_exceptions (v : JSON) (pm : PriceMap) :
    build_price_mapE v = .ok (build_price_map v) ∧
      compute_sales_totalE pm v = .ok (compute_sales_total pm v) := by
  constructor
  · rcases v with _ | b | n | q | s | xs | fs <;>
      simp [build_price_mapE, build_price_map, buildLoopE_eq]
  · rcases v with _ | b | n | q | s | xs | fs <;>
      simp [compute_sales_totalE, compute_sales_total, computeLoopE_eq]

/-- **C8.** `format_results` produces exactly the five-line block —
header, `Total Sales Cost: $` followed by the total thousands-separated
with two decimal places, an empty line, `Time Elapsed: ` followed by the
elapsed time with six decimal places and ` seconds`, and the closing
rule — joined by newlines; with concrete checks of both number formats. -/
theorem format_results_layout (t e : ℚ) :
    format_results t e =
        "==== SALES RESULTS ====" ++ "\n" ++
          ("Total Sales Cost: $" ++ fmtCommaFixed t 2) ++ "\n" ++
          "" ++ "\n" ++
          ("Time Elapsed: " ++ fmtFixed e 6 ++ " seconds") ++ "\n" ++
          "=======================" ∧
      fmtCommaFixed (1234567 : ℚ) 2 = "1,234,567.00" ∧
      fmtFixed (1/8 : ℚ) 6 = "0.125000" := by
  refine ⟨rfl, ?_, ?_⟩
  · have h : roundHalfEvenScaled (1234567 : ℚ) 2 = 123456700 := by
      simp [roundHalfEvenScaled]
    have hneg : decide ((1234567 : ℚ) < 0) = false := by decide
    rw [fmtCommaFixed, h, hneg]
    decide
  · have h : roundHalfEvenScaled (1/8 : ℚ) 6 = 125000 := by
      norm_num [roundHalfEvenScaled]
      decide
    have hneg : decide ((1/8 : ℚ) < 0) = false := by norm_num
    rw [fmtFixed, h, hneg]
    decide

/-- **C9.** `compute_sales_total` leaves the price map unchanged: with the
map threaded through the loop as state, the map at exit equals the map at
entry, while the total computed is the same as `compute_sales_total`'s. -/
theorem price_map_unchanged (pm : PriceMap) (v : JSON) :
    (compute_sales_totalF pm v).1 = pm ∧
      (compute_sales_totalF pm v).2 = (compute_sales_total pm v).1 := by
  rcases v with _ | b | n | q | s | xs | fs <;>
    simp [compute_sales_totalF, compute_sales_total, computeLoopF_eq]

/-- **C10.** A sale whose `Quantity` is the boolean `true` (resp. `false`)
with a `Product` present in the price map is *not* skipped: booleans pass
the `isinstance(x, (int, float))` check, so the sale contributes
`price_map[Product] * 1.0` (resp. `* 0.0`) and emits no diagnostic. -/
theorem bool_quantity_counted (pm : PriceMap) (idx : ℕ) (s : String)
    (b : Bool) (h : containsKey pm s = true) :
    saleStep pm idx (.obj [("Product", .str s), ("Quantity", .bool b)]) =
        ((plookup pm s).getD 0 * (if b then 1 else 0), []) ∧
      (compute_sales_total pm
          (.arr [.obj [("Product", .str s), ("Quantity", .bool b)]])).1 =
        (plookup pm s).getD 0 * (if b then 1 else 0) := by
  have hstep0 : ∀ k : ℕ,
      saleStep pm k (.obj [("Product", .str s), ("Quantity", .bool b)]) =
        ((plookup pm s).getD 0 * (if b then 1 else 0), []) := by
    intro k
    simp +decide [saleStep, JSON.isObj, JSON.get, JSON.lookupField, optIsStr,
      optIsNumeric, JSON.isNumeric, optStr, optToFloat, JSON.toFloat, h]
  refine ⟨hstep0 idx, ?_⟩
  simp [compute_sales_total, computeLoop, hstep0 0]

/-- Witness for C10 at price map `[("A", 5)]` and quantity `true`. -/
theorem bool_quantity_counted_witness :
    containsKey [("A", 5)] "A" = true ∧
      (saleStep [("A", 5)] 0
          (.obj [("Product", .str "A"), ("Quantity", .bool true)]) =
        ((plookup [("A", 5)] "A").getD 0 * (if true then 1 else 0), []) ∧
      (compute_sales_total [("A", 5)]
          (.arr [.obj [("Product", .str "A"), ("Quantity", .bool true)]])).1 =
        (plookup [("A", 5)] "A").getD 0 * (if true then 1 else 0)) :=
  ⟨by decide, bool_quantity_counted [("A", 5)] 0 "A" true (by decide)⟩
